import Mathlib

/-!
Verification of the warm-transfer orchestration engine of
`warm_transfer.py` (class `SessionManager`, the `entrypoint`, and the
`SupervisorAgent.voicemail_detected` tool).

The embedding is a state-passing translation of the Python class.  Each
method becomes a function `SessionManager → SessionManager × List Event`;
the event list records, in program order, every external call and side
effect the method issues (room connect, SIP dial, participant move,
handler (de)registration, audio toggles, hold play/stop, spoken output,
session closes).  Awaited external calls that can raise are modelled by
an outcome parameter naming the step at which the exception (if any) is
raised; the request event is still recorded, since the request was issued
before it failed, and the Python `except` handler is then followed
faithfully.

Python-semantics notes reflected in the model:
* `Room()` is assigned to `self.supervisor_room` before `connect` is
  awaited, so the room handle is present even when `connect` raises.
* `self.supervisor_session = AgentSession(...)` happens before
  `session.start` is awaited, so the session handle is present when
  `start` raises.
* `room.on` / `room.off` are synchronous; the disconnect callback can
  only fire while the handler is registered.
* `SupervisorAgent.voicemail_detected` invokes the coroutine function
  `set_supervisor_failed` without `await` (and without scheduling it),
  so the coroutine object is created but its body never executes.
-/

/-- `SupervisorStatus = Literal["inactive", "summarizing", "merged", "failed"]`. -/
inductive SupervisorStatus
  | inactive
  | summarizing
  | merged
  | failed
  deriving DecidableEq, Repr

/-- `CustomerStatus = Literal["active", "escalated", "passive"]`. -/
inductive CustomerStatus
  | active
  | escalated
  | passive
  deriving DecidableEq, Repr

/-- External calls and side effects issued by `SessionManager`'s methods,
recorded in program order. -/
inductive Event
  | roomConnect                 -- `await self.supervisor_room.connect(...)`
  | onSupervisorHandler         -- `self.supervisor_room.on("disconnected", ...)`
  | offSupervisorHandler        -- `self.supervisor_room.off("disconnected", ...)`
  | sessionStart                -- `await self.supervisor_session.start(...)`
  | dial                        -- `await self.lkapi.sip.create_sip_participant(...)`
  | moveParticipant             -- `await self.lkapi.room.move_participant(...)`
  | onCustomerHandler           -- `self.customer_room.on("participant_disconnected", ...)`
  | holdPlay                    -- `self.background_audio.play(...)`
  | holdStop                    -- `self.hold_audio_handle.stop()`
  | setInputEnabled (b : Bool)  -- `self.customer_session.input.set_audio_enabled(b)`
  | setOutputEnabled (b : Bool) -- `self.customer_session.output.set_audio_enabled(b)`
  | generateReply               -- `self.customer_session.generate_reply(...)`
  | say                         -- `await self.customer_session.say(...)`
  | closeCustomerSession        -- `await self.customer_session.aclose()`
  | closeSupervisorSession      -- `await self.supervisor_session.aclose()`
  deriving DecidableEq, Repr

/-- The mutable state of a `SessionManager` instance together with the
observable state of the objects it owns.  Optional handles
(`hold_audio_handle`, `supervisor_session`, `supervisor_room`) are
modelled by their presence (`true` = not `None`). -/
structure SessionManager where
  customer_status : CustomerStatus
  supervisor_status : SupervisorStatus
  hold_audio_handle : Bool
  customer_input_enabled : Bool
  customer_output_enabled : Bool
  customer_session_closed : Bool
  supervisor_session : Bool
  supervisor_session_closed : Bool
  supervisor_room : Bool
  supervisor_room_connected : Bool
  supervisor_handler_registered : Bool
  customer_handler_registered : Bool
  deriving DecidableEq, Repr

/-- State at the end of `entrypoint`: customer leg live, nothing
supervisor-side exists yet, audio bidirectional, no hold. -/
def init : SessionManager :=
  { customer_status := CustomerStatus.active
    supervisor_status := SupervisorStatus.inactive
    hold_audio_handle := false
    customer_input_enabled := true
    customer_output_enabled := true
    customer_session_closed := false
    supervisor_session := false
    supervisor_session_closed := false
    supervisor_room := false
    supervisor_room_connected := false
    supervisor_handler_registered := false
    customer_handler_registered := false }

/-- `SessionManager.start_hold`: disable customer input, disable customer
output, play the looping hold stream and store the handle. -/
def start_hold (s : SessionManager) : SessionManager × List Event :=
  ({ s with customer_input_enabled := false
            customer_output_enabled := false
            hold_audio_handle := true },
   [Event.setInputEnabled false, Event.setOutputEnabled false, Event.holdPlay])

/-- `SessionManager.stop_hold`: stop and clear the hold handle if present,
then re-enable customer input and output. -/
def stop_hold (s : SessionManager) : SessionManager × List Event :=
  if s.hold_audio_handle then
    ({ s with hold_audio_handle := false
              customer_input_enabled := true
              customer_output_enabled := true },
     [Event.holdStop, Event.setInputEnabled true, Event.setOutputEnabled true])
  else
    ({ s with customer_input_enabled := true
              customer_output_enabled := true },
     [Event.setInputEnabled true, Event.setOutputEnabled true])

/-- `SessionManager.set_supervisor_failed`: set the supervisor status to
`failed`, `stop_hold`, issue one `generate_reply` notice to the customer,
and close the supervisor session if present (`None` afterwards).  The
customer status and the supervisor room are not touched. -/
def set_supervisor_failed (s : SessionManager) : SessionManager × List Event :=
  let p := stop_hold { s with supervisor_status := SupervisorStatus.failed }
  if p.1.supervisor_session then
    ({ p.1 with supervisor_session := false, supervisor_session_closed := true },
     p.2 ++ [Event.generateReply, Event.closeSupervisorSession])
  else
    (p.1, p.2 ++ [Event.generateReply])

/-- Step of `start_transfer` at which the awaited external call raises, if
any: `connectFail` at `supervisor_room.connect`, `sessionStartFail` at
`supervisor_session.start`, `dialFail` at `create_sip_participant`
(invalid trunk, unreachable or unanswered destination, timeout). -/
inductive TransferOutcome
  | connectFail
  | sessionStartFail
  | dialFail
  | ok
  deriving DecidableEq, Repr

/-- `SessionManager.start_transfer`: no-op unless the customer status is
`active`; otherwise escalate, engage hold, create the supervisor room and
connect, register the disconnect handler, create and start the supervisor
session, dial.  On success set supervisor status `summarizing`; any
exception restores customer status `active` and runs
`set_supervisor_failed`. -/
def start_transfer (o : TransferOutcome) (s : SessionManager) :
    SessionManager × List Event :=
  if s.customer_status = CustomerStatus.active then
    let h := start_hold { s with customer_status := CustomerStatus.escalated }
    -- `self.supervisor_room = rtc.Room()` precedes `connect`
    let s2 := { h.1 with supervisor_room := true }
    match o with
    | TransferOutcome.connectFail =>
      let p := set_supervisor_failed { s2 with customer_status := CustomerStatus.active }
      (p.1, h.2 ++ [Event.roomConnect] ++ p.2)
    | TransferOutcome.sessionStartFail =>
      let s3 := { s2 with supervisor_room_connected := true
                          supervisor_handler_registered := true
                          supervisor_session := true }
      let p := set_supervisor_failed { s3 with customer_status := CustomerStatus.active }
      (p.1, h.2 ++ [Event.roomConnect, Event.onSupervisorHandler,
                    Event.sessionStart] ++ p.2)
    | TransferOutcome.dialFail =>
      let s3 := { s2 with supervisor_room_connected := true
                          supervisor_handler_registered := true
                          supervisor_session := true }
      let p := set_supervisor_failed { s3 with customer_status := CustomerStatus.active }
      (p.1, h.2 ++ [Event.roomConnect, Event.onSupervisorHandler,
                    Event.sessionStart, Event.dial] ++ p.2)
    | TransferOutcome.ok =>
      ({ s2 with supervisor_room_connected := true
                 supervisor_handler_registered := true
                 supervisor_session := true
                 supervisor_status := SupervisorStatus.summarizing },
       h.2 ++ [Event.roomConnect, Event.onSupervisorHandler,
               Event.sessionStart, Event.dial])
  else (s, [])

/-- Step of `merge_calls` at which the awaited call raises, if any:
`moveFail` at `move_participant` (participant already disconnected or
destination room missing), `sayFail` at the goodbye `say`. -/
inductive MergeOutcome
  | moveFail
  | sayFail
  | ok
  deriving DecidableEq, Repr

/-- `SessionManager.merge_calls`: no-op unless the supervisor status is
`summarizing`; otherwise deregister the supervisor disconnect handler,
move the supervisor participant into the customer room, stop the hold
stream (handle only — input stays muted), register the customer
participant-disconnected handler, enable customer output, speak the
goodbye line, close the customer session, close the supervisor session if
present.  Any exception routes to `set_supervisor_failed`.  The source
never assigns `supervisor_status = "merged"`, so the status is left
unchanged on the successful path. -/
def merge_calls (o : MergeOutcome) (s : SessionManager) :
    SessionManager × List Event :=
  if s.supervisor_status = SupervisorStatus.summarizing then
    let s1 := { s with supervisor_handler_registered := false }
    match o with
    | MergeOutcome.moveFail =>
      let p := set_supervisor_failed s1
      (p.1, Event.offSupervisorHandler :: Event.moveParticipant :: p.2)
    | MergeOutcome.sayFail =>
      let s2 := if s1.hold_audio_handle then { s1 with hold_audio_handle := false } else s1
      let htr := if s1.hold_audio_handle then [Event.holdStop] else []
      let p := set_supervisor_failed
        { s2 with customer_handler_registered := true
                  customer_output_enabled := true }
      (p.1, Event.offSupervisorHandler :: Event.moveParticipant ::
        (htr ++ [Event.onCustomerHandler, Event.setOutputEnabled true,
                 Event.say] ++ p.2))
    | MergeOutcome.ok =>
      let s2 := if s1.hold_audio_handle then { s1 with hold_audio_handle := false } else s1
      let htr := if s1.hold_audio_handle then [Event.holdStop] else []
      let s3 := { s2 with customer_handler_registered := true
                          customer_output_enabled := true
                          customer_session_closed := true }
      let p :=
        if s3.supervisor_session then
          ({ s3 with supervisor_session := false, supervisor_session_closed := true },
           [Event.closeSupervisorSession])
        else (s3, ([] : List Event))
      (p.1, Event.offSupervisorHandler :: Event.moveParticipant ::
        (htr ++ [Event.onCustomerHandler, Event.setOutputEnabled true,
                 Event.say, Event.closeCustomerSession] ++ p.2))
  else (s, [])

/-- `SessionManager.on_supervisor_room_close`: fires only while the
handler is registered on the supervisor room; it schedules
`set_supervisor_failed` as a task, which then runs. -/
def on_supervisor_room_close (s : SessionManager) : SessionManager × List Event :=
  if s.supervisor_handler_registered then set_supervisor_failed s else (s, [])

/-- `SupervisorAgent.voicemail_detected`: the body is
`self.session_manager.set_supervisor_failed()` with no `await` and no
task scheduling, so under Python coroutine semantics the coroutine object
is created and discarded and its body never executes: no state change, no
external call. -/
def voicemail_detected (s : SessionManager) : SessionManager × List Event :=
  (s, [])

/-- Atomic operations of the transfer state machine, as invoked by the
conversational layer or by the transport's disconnect notification. -/
inductive Op
  | startTransfer (o : TransferOutcome)
  | mergeCalls (o : MergeOutcome)
  | supervisorFailed
  | supervisorRoomDisconnect
  deriving DecidableEq, Repr

/-- One atomic operation applied to the state (events discarded). -/
def step (s : SessionManager) (op : Op) : SessionManager :=
  match op with
  | Op.startTransfer o => (start_transfer o s).1
  | Op.mergeCalls o => (merge_calls o s).1
  | Op.supervisorFailed => (set_supervisor_failed s).1
  | Op.supervisorRoomDisconnect => (on_supervisor_room_close s).1

/-- State reached from `init` by a sequence of atomic operations. -/
def run (ops : List Op) : SessionManager :=
  ops.foldl step init

/-- Steps of `entrypoint` relevant to configuration validation, in
program order. -/
inductive EntryStep
  | logEnvCheck             -- environment variables are logged, not validated
  | sessionManagerCreate    -- `SessionManager(...)` constructed
  | customerSessionStart    -- `await session.start(...)` on the customer room
  | backgroundAudioStart    -- `await session_manager.start()`
  deriving DecidableEq, Repr

/-- Configuration read from the environment at module load. -/
structure EntryConfig where
  sip_trunk : Option String
  supervisor_phone : Option String
  deriving DecidableEq, Repr

/-- Python truthiness test `if not SUPERVISOR_PHONE_NUMBER`: unset or
empty. -/
def phone_missing : Option String → Bool
  | none => true
  | some p => p = ""

/-- `entrypoint`, restricted to its ordering of session start versus
configuration validation: it creates the `SessionManager`, starts the
customer session, and only then checks `SUPERVISOR_PHONE_NUMBER`, raising
`ValueError` when it is unset or empty (`SIP_TRUNK_ID` is only logged,
never validated).  The second component is `true` when the `ValueError`
is raised. -/
def entrypoint (cfg : EntryConfig) : List EntryStep × Bool :=
  let steps := [EntryStep.logEnvCheck, EntryStep.sessionManagerCreate,
                EntryStep.customerSessionStart]
  if phone_missing cfg.supervisor_phone then
    (steps, true)
  else
    (steps ++ [EntryStep.backgroundAudioStart], false)

/-- Claim C1 (code evaluated at the failing run): after `start_transfer`
succeeds and `merge_calls` completes without an exception, both
conversation sessions are closed, no hold handle remains and the
teardown handler is registered on the merged room, but the supervisor
status is still `summarizing`, not `merged`: `merge_calls` never assigns
the declared `"merged"` status. -/
theorem happy_path_final_state :
    (run [Op.startTransfer TransferOutcome.ok, Op.mergeCalls MergeOutcome.ok]).supervisor_status
        = SupervisorStatus.summarizing ∧
    (run [Op.startTransfer TransferOutcome.ok, Op.mergeCalls MergeOutcome.ok]).supervisor_status
        ≠ SupervisorStatus.merged ∧
    (run [Op.startTransfer TransferOutcome.ok, Op.mergeCalls MergeOutcome.ok]).customer_session_closed
        = true ∧
    (run [Op.startTransfer TransferOutcome.ok, Op.mergeCalls MergeOutcome.ok]).supervisor_session
        = false ∧
    (run [Op.startTransfer TransferOutcome.ok, Op.mergeCalls MergeOutcome.ok]).supervisor_session_closed
        = true ∧
    (run [Op.startTransfer TransferOutcome.ok, Op.mergeCalls MergeOutcome.ok]).hold_audio_handle
        = false ∧
    (run [Op.startTransfer TransferOutcome.ok, Op.mergeCalls MergeOutcome.ok]).customer_handler_registered
        = true := by
  decide

/-- Claim C2 (code evaluated at the failing run): the state reached by a
successful `start_transfer` followed by a successful `merge_calls` has
`customer_status = escalated` and `supervisor_status = summarizing` (the
`merged` assignment is missing from the source) while the hold handle is
gone, so a reachable state violates the hold-handle iff invariant. -/
theorem hold_invariant_fails_after_merge :
    (run [Op.startTransfer TransferOutcome.ok, Op.mergeCalls MergeOutcome.ok]).customer_status
        = CustomerStatus.escalated ∧
    (run [Op.startTransfer TransferOutcome.ok, Op.mergeCalls MergeOutcome.ok]).supervisor_status
        = SupervisorStatus.summarizing ∧
    (run [Op.startTransfer TransferOutcome.ok, Op.mergeCalls MergeOutcome.ok]).hold_audio_handle
        = false := by
  decide

/-- Claim C3 (counterexample): after an early supervisor hangup (dial
succeeded, then the supervisor room disconnects before merge) the
customer status is `escalated`, not `active`, and the terminal state
differs from the dial-timeout terminal state. -/
theorem early_hangup_differs_from_dial_timeout :
    (run [Op.startTransfer TransferOutcome.ok, Op.supervisorRoomDisconnect]).customer_status
        = CustomerStatus.escalated ∧
    (run [Op.startTransfer TransferOutcome.dialFail]).customer_status
        = CustomerStatus.active ∧
    run [Op.startTransfer TransferOutcome.ok, Op.supervisorRoomDisconnect]
        ≠ run [Op.startTransfer TransferOutcome.dialFail] := by
  decide

/-- Claim C3 (amended): the failure paths inside `start_transfer` restore
`customer_status = active` and end at `supervisor_status = failed`;
`set_supervisor_failed` itself never changes the customer status, so the
early-hangup and mid-merge failure paths leave it `escalated`; concretely
the early-hangup terminal state is `escalated`/`failed` while the
dial-timeout terminal state is `active`/`failed`. -/
theorem failure_paths_customer_status :
    (∀ (s : SessionManager) (o : TransferOutcome),
      s.customer_status = CustomerStatus.active → o ≠ TransferOutcome.ok →
        (start_transfer o s).1.customer_status = CustomerStatus.active ∧
        (start_transfer o s).1.supervisor_status = SupervisorStatus.failed ∧
        (start_transfer o s).1.hold_audio_handle = false) ∧
    (∀ s : SessionManager,
        (set_supervisor_failed s).1.customer_status = s.customer_status ∧
        (set_supervisor_failed s).1.supervisor_status = SupervisorStatus.failed ∧
        (set_supervisor_failed s).1.hold_audio_handle = false) ∧
    ((run [Op.startTransfer TransferOutcome.ok, Op.supervisorRoomDisconnect]).customer_status
        = CustomerStatus.escalated ∧
     (run [Op.startTransfer TransferOutcome.ok, Op.supervisorRoomDisconnect]).supervisor_status
        = SupervisorStatus.failed ∧
     (run [Op.startTransfer TransferOutcome.dialFail]).customer_status
        = CustomerStatus.active ∧
     (run [Op.startTransfer TransferOutcome.dialFail]).supervisor_status
        = SupervisorStatus.failed) := by
  refine ⟨?_, ?_, by decide⟩
  · intro s o
    obtain ⟨cs, ss, hold, ci, co, ccl, sup, scl, r, rc, hr, cr⟩ := s
    intro h ho
    have h2 : cs = CustomerStatus.active := h
    subst h2
    cases o
    case connectFail => cases sup <;> exact ⟨rfl, rfl, rfl⟩
    case sessionStartFail => exact ⟨rfl, rfl, rfl⟩
    case dialFail => exact ⟨rfl, rfl, rfl⟩
    case ok => exact absurd rfl ho
  · intro s
    obtain ⟨cs, ss, hold, ci, co, ccl, sup, scl, r, rc, hr, cr⟩ := s
    cases hold <;> cases sup <;> exact ⟨rfl, rfl, rfl⟩

/-- Claim C3 (witness): the amended theorem applied at the dial-failure
input from the initial state. -/
theorem failure_paths_customer_status_witness :
    (start_transfer TransferOutcome.dialFail init).1.customer_status
        = CustomerStatus.active ∧
    (start_transfer TransferOutcome.dialFail init).1.supervisor_status
        = SupervisorStatus.failed ∧
    (start_transfer TransferOutcome.dialFail init).1.hold_audio_handle = false :=
  failure_paths_customer_status.1 init TransferOutcome.dialFail (by decide) (by decide)

/-- Claim C4 (counterexample): two consecutive calls to
`set_supervisor_failed` from the post-`start_transfer` state issue two
`generate_reply` notices to the customer, not one — the notice is
unconditional in the source. -/
theorem double_failed_speaks_twice :
    ((set_supervisor_failed (run [Op.startTransfer TransferOutcome.ok])).2 ++
     (set_supervisor_failed
        (set_supervisor_failed (run [Op.startTransfer TransferOutcome.ok])).1).2).count
      Event.generateReply = 2 := by
  decide

/-- Claim C4 (amended): two consecutive calls to `set_supervisor_failed`
yield the same final state as one call, but each call issues exactly one
spoken notice, so the pair of calls issues two notices. -/
theorem set_supervisor_failed_idempotent :
    ∀ s : SessionManager,
      (set_supervisor_failed (set_supervisor_failed s).1).1
          = (set_supervisor_failed s).1 ∧
      (set_supervisor_failed s).2.count Event.generateReply = 1 := by
  intro s
  obtain ⟨cs, ss, hold, ci, co, ccl, sup, scl, r, rc, hr, cr⟩ := s
  cases hold <;> cases sup <;> exact ⟨rfl, rfl⟩

/-- Claim C5 (code evaluated at the failing input): with the supervisor
phone number unset, `entrypoint` raises the `ValueError` only after the
customer-facing session has been started (and the session manager
created), so a customer call does start under a fatal configuration
error. -/
theorem config_error_after_session_start :
    (entrypoint { sip_trunk := none, supervisor_phone := none }).2 = true ∧
    EntryStep.customerSessionStart ∈
      (entrypoint { sip_trunk := none, supervisor_phone := none }).1 := by
  decide

/-- Claim C6 (counterexample): in a `merge_calls` run where the
participant move completed and a later step (the goodbye `say`) raises,
the routed `set_supervisor_failed` re-enables the customer agent's input
audio via `stop_hold`. -/
theorem merge_exception_reenables_input :
    Event.moveParticipant ∈
      (merge_calls MergeOutcome.sayFail (run [Op.startTransfer TransferOutcome.ok])).2 ∧
    (run [Op.startTransfer TransferOutcome.ok]).customer_input_enabled = false ∧
    (merge_calls MergeOutcome.sayFail
        (run [Op.startTransfer TransferOutcome.ok])).1.customer_input_enabled = true := by
  decide

/-- Claim C6 (amended): on the successful merge path the customer agent's
input audio stays disabled after the participant move, but an exception
in a later merge step routes to `set_supervisor_failed`, whose
`stop_hold` re-enables the input audio. -/
theorem input_audio_after_move :
    ∀ s : SessionManager, s.supervisor_status = SupervisorStatus.summarizing →
      s.customer_input_enabled = false →
      (merge_calls MergeOutcome.ok s).1.customer_input_enabled = false ∧
      (merge_calls MergeOutcome.sayFail s).1.customer_input_enabled = true := by
  intro s
  obtain ⟨cs, ss, hold, ci, co, ccl, sup, scl, r, rc, hr, cr⟩ := s
  intro h hi
  have h2 : ss = SupervisorStatus.summarizing := h
  have hi2 : ci = false := hi
  subst h2
  subst hi2
  cases hold <;> cases sup <;> exact ⟨rfl, rfl⟩

/-- Claim C6 (witness): the amended theorem applied at the state reached
by a successful `start_transfer`. -/
theorem input_audio_after_move_witness :
    (merge_calls MergeOutcome.ok
        (run [Op.startTransfer TransferOutcome.ok])).1.customer_input_enabled = false ∧
    (merge_calls MergeOutcome.sayFail
        (run [Op.startTransfer TransferOutcome.ok])).1.customer_input_enabled = true :=
  input_audio_after_move (run [Op.startTransfer TransferOutcome.ok]) (by decide) (by decide)

/-- Claim C7 (counterexample): `set_supervisor_failed` called in the
post-`start_transfer` state closes the supervisor conversation session
but leaves the supervisor room handle present and connected — the source
never disconnects the supervisor room. -/
theorem failed_leaves_supervisor_room_open :
    (set_supervisor_failed (run [Op.startTransfer TransferOutcome.ok])).1.supervisor_session
        = false ∧
    (set_supervisor_failed (run [Op.startTransfer TransferOutcome.ok])).1.supervisor_room
        = true ∧
    (set_supervisor_failed
        (run [Op.startTransfer TransferOutcome.ok])).1.supervisor_room_connected = true := by
  decide

/-- Claim C7 (amended): every call to `set_supervisor_failed` closes the
supervisor conversation session exactly when one is present, but leaves
the supervisor room handle and its connected flag untouched: the room is
never disconnected by this routine. -/
theorem set_supervisor_failed_resources :
    ∀ s : SessionManager,
      (set_supervisor_failed s).1.supervisor_session = false ∧
      (set_supervisor_failed s).2.count Event.closeSupervisorSession
          = cond s.supervisor_session 1 0 ∧
      (set_supervisor_failed s).1.supervisor_room = s.supervisor_room ∧
      (set_supervisor_failed s).1.supervisor_room_connected
          = s.supervisor_room_connected := by
  intro s
  obtain ⟨cs, ss, hold, ci, co, ccl, sup, scl, r, rc, hr, cr⟩ := s
  cases hold <;> cases sup <;> exact ⟨rfl, rfl, rfl, rfl⟩

/-- Claim C8: in every execution of `merge_calls` that passes the guard,
the deregistration of the supervisor disconnect handler is the first
issued effect and the `move_participant` request is issued strictly after
it, with the handler flag already cleared in the resulting state. -/
theorem deregister_before_move :
    ∀ (s : SessionManager) (o : MergeOutcome),
      s.supervisor_status = SupervisorStatus.summarizing →
      (merge_calls o s).1.supervisor_handler_registered = false ∧
      ∃ rest, (merge_calls o s).2
          = Event.offSupervisorHandler :: Event.moveParticipant :: rest := by
  intro s o
  obtain ⟨cs, ss, hold, ci, co, ccl, sup, scl, r, rc, hr, cr⟩ := s
  intro h
  have h2 : ss = SupervisorStatus.summarizing := h
  subst h2
  cases o <;> cases hold <;> cases sup <;> exact ⟨rfl, _, rfl⟩

/-- Claim C8 (witness): the theorem applied at the state reached by a
successful `start_transfer`, with the successful merge outcome. -/
theorem deregister_before_move_witness :
    (merge_calls MergeOutcome.ok
        (run [Op.startTransfer TransferOutcome.ok])).1.supervisor_handler_registered
        = false ∧
    ∃ rest, (merge_calls MergeOutcome.ok (run [Op.startTransfer TransferOutcome.ok])).2
        = Event.offSupervisorHandler :: Event.moveParticipant :: rest :=
  deregister_before_move (run [Op.startTransfer TransferOutcome.ok]) MergeOutcome.ok
    (by decide)

/-- Claim C9: when the customer status is not `active`, `start_transfer`
returns the state unchanged and issues no external call or side effect
whatever the outcome parameter. -/
theorem start_transfer_noop_when_not_active :
    ∀ (s : SessionManager) (o : TransferOutcome),
      s.customer_status ≠ CustomerStatus.active → start_transfer o s = (s, []) := by
  intro s o h
  unfold start_transfer
  rw [if_neg h]

/-- Claim C9 (witness): the theorem applied at the escalated state
reached by a successful `start_transfer`. -/
theorem start_transfer_noop_witness :
    start_transfer TransferOutcome.ok (run [Op.startTransfer TransferOutcome.ok])
      = (run [Op.startTransfer TransferOutcome.ok], []) :=
  start_transfer_noop_when_not_active (run [Op.startTransfer TransferOutcome.ok])
    TransferOutcome.ok (by decide)

/-- Claim C10: `voicemail_detected` leaves the session manager's state
entirely unchanged and issues no external call, since the
`set_supervisor_failed` coroutine it creates is never awaited and its
body never executes. -/
theorem voicemail_detected_state_unchanged :
    ∀ s : SessionManager,
      voicemail_detected s = (s, []) ∧
      (voicemail_detected s).1.supervisor_status = s.supervisor_status ∧
      (voicemail_detected s).1.hold_audio_handle = s.hold_audio_handle ∧
      (voicemail_detected s).1.customer_input_enabled = s.customer_input_enabled ∧
      (voicemail_detected s).1.customer_output_enabled = s.customer_output_enabled ∧
      (voicemail_detected s).1.supervisor_session = s.supervisor_session :=
  fun _ => ⟨rfl, rfl, rfl, rfl, rfl, rfl⟩
